import Mathlib

/-!
Shallow embedding of src/src/modules/tts-client-wrapper.ts
(obsidian-edge-tts): prosody normalization, stream adapters for the two
TTS backends, and the client/voice selector.

JavaScript strings are modelled by Lean String, byte buffers by List Nat,
JS numbers by ℚ, and callbacks by abstract identifiers (Nat).  Asynchronous
producer loops are modelled as pure functions from the producer's
behaviour (a value of an inductive type) to the list of events they emit,
in emission order.
-/

namespace EdgeTTS

/-- JS truthiness fallback on strings: the expression a || b (empty string
is the only falsy string; undefined is modelled as ""). -/
def jsOr (a b : String) : String := if a = "" then b else a

/-- JS whitespace test for the characters relevant here (space, tab, LF, CR). -/
def isJsSpace (c : Char) : Bool := c = ' ' || c = '\t' || c = '\n' || c = '\r'

/-- JS String.prototype.trim: strip leading and trailing whitespace. -/
def jsTrim (s : String) : String :=
  ⟨((s.data.dropWhile isJsSpace).reverse.dropWhile isJsSpace).reverse⟩

/-- JS Math.round: round half toward positive infinity. -/
def jsRound (x : ℚ) : ℤ := ⌊x + 1/2⌋

/-- createProsodyOptions (tts-client-wrapper.ts:77-89): convert a rate
multiplier to a signed percentage string; the result is the value of the
rate field of the returned prosody object (none when the field is absent). -/
def createProsodyOptions (rate : Option ℚ) : Option String :=
  match rate with
  | none => none
  | some r =>
    let percentage : ℤ := jsRound ((r - 1) * 100)
    if percentage ≠ 0 then
      some (if percentage > 0 then "+" ++ toString percentage ++ "%"
            else toString percentage ++ "%")
    else none

/-- Configuration record consumed by the client selector
(fields of EdgeTTSPluginSettings that this module reads). -/
structure EdgeTTSPluginSettings where
  ttsEngine : String
  selectedVoice : String
  customVoice : String
  deepgramApiKey : String
  deepgramModel : String
  deriving DecidableEq

/-- getVoiceForSettings (tts-client-wrapper.ts:339-344). -/
def getVoiceForSettings (s : EdgeTTSPluginSettings) : String :=
  if s.ttsEngine = "deepgram" then
    jsOr (jsTrim (jsOr s.deepgramModel "aura-asteria-en")) "aura-asteria-en"
  else
    jsOr (jsTrim s.customVoice) s.selectedVoice

/-! ### Events and listener bookkeeping -/

/-- Events a stream session can emit. -/
inductive TTSEvent where
  | data (chunk : List Nat)
  | endEv
  | errorEv (msg : String)
  deriving DecidableEq

/-- Argument passed to a listener callback. -/
inductive EmitArg where
  | bytes (b : List Nat)
  | errMsg (e : String)
  deriving DecidableEq

/-- One synchronous invocation of a listener callback (callbacks are
identified by abstract Nat ids). -/
structure Call where
  cb : Nat
  args : List EmitArg
  deriving DecidableEq

/-- Append cb to the listener list of event (Map.get plus push). -/
def addListener (ls : List (String × List Nat)) (event : String) (cb : Nat) :
    List (String × List Nat) :=
  match ls with
  | [] => [(event, [cb])]
  | (e, cbs) :: rest =>
    if e = event then (e, cbs ++ [cb]) :: rest
    else (e, cbs) :: addListener rest event cb

/-- Listener list registered for event, in registration order
(this.listeners.get(event) || []). -/
def getListeners (ls : List (String × List Nat)) (event : String) : List Nat :=
  match ls with
  | [] => []
  | (e, cbs) :: rest => if e = event then cbs else getListeners rest event

/-! ### SimpleStreamAdapter (tts-client-wrapper.ts:95-118) -/

/-- State of a SimpleStreamAdapter: listener map and the permanent
hasEnded flag. -/
structure SimpleStreamAdapter where
  listeners : List (String × List Nat)
  hasEnded : Bool
  deriving DecidableEq

/-- Fresh adapter as built by the constructor. -/
def SimpleStreamAdapter.initial : SimpleStreamAdapter :=
  { listeners := [], hasEnded := false }

/-- SimpleStreamAdapter.on: store the callback; if the event is end and
the stream already ended, also invoke the callback immediately with no
arguments.  Returns the new state and the immediate invocations. -/
def SimpleStreamAdapter.on (s : SimpleStreamAdapter) (event : String) (cb : Nat) :
    SimpleStreamAdapter × List Call :=
  let s' : SimpleStreamAdapter := { s with listeners := addListener s.listeners event cb }
  if event = "end" ∧ s.hasEnded then (s', [⟨cb, []⟩]) else (s', [])

/-- SimpleStreamAdapter.emit: set hasEnded on end, then invoke every
registered callback for the event with the given arguments. -/
def SimpleStreamAdapter.emit (s : SimpleStreamAdapter) (event : String) (args : List EmitArg) :
    SimpleStreamAdapter × List Call :=
  let s' : SimpleStreamAdapter := if event = "end" then { s with hasEnded := true } else s
  (s', (getListeners s'.listeners event).map (fun cb => ⟨cb, args⟩))

/-! ### Generator-backed stream adapter
(the object literal in UniversalTTSClient.toStream, tts-client-wrapper.ts:269-319) -/

/-- State of the generator-backed adapter object: listener map and the
isConsuming flag.  It has no hasEnded field. -/
structure GenAdapter where
  listeners : List (String × List Nat)
  isConsuming : Bool
  deriving DecidableEq

/-- The object literal's initial state. -/
def GenAdapter.initial : GenAdapter :=
  { listeners := [], isConsuming := false }

/-- streamAdapter.on: store the callback; when the event is data and
consumption has not started, call consumeAsyncGenerator (which sets
isConsuming synchronously).  Returns the new state, the immediate
listener invocations performed by on (always none: consumeAsyncGenerator
suspends at its first await before emitting anything), and whether this
call started consumption. -/
def GenAdapter.on (s : GenAdapter) (event : String) (cb : Nat) :
    GenAdapter × List Call × Bool :=
  let s' : GenAdapter := { s with listeners := addListener s.listeners event cb }
  if event = "data" ∧ ¬ s.isConsuming then
    ({ s' with isConsuming := true }, [], true)
  else (s', [], false)

/-- streamAdapter.emit: invoke every registered callback for the event;
the state is unchanged (no terminal-state tracking). -/
def GenAdapter.emit (s : GenAdapter) (event : String) (args : List EmitArg) : List Call :=
  (getListeners s.listeners event).map (fun cb => ⟨cb, args⟩)

/-- Fold a sequence of on-registrations; the Bool records whether any of
them started consumption of the generator. -/
def runOns (s : GenAdapter) : List (String × Nat) → GenAdapter × Bool
  | [] => (s, false)
  | (e, cb) :: rest =>
    let r := s.on e cb
    let r' := runOns r.1 rest
    (r'.1, r.2.2 || r'.2)

/-! ### consumeAsyncGenerator (tts-client-wrapper.ts:291-318) -/

/-- Shape predicates of a chunk's data payload as seen by the JS
instanceof / typeof tests, together with its underlying bytes. -/
structure ChunkPayload where
  isUint8Array : Bool
  isArrayBuffer : Bool
  isNodeBuffer : Bool
  isString : Bool
  isObject : Bool
  bytes : List Nat
  deriving DecidableEq

/-- Environment flags: whether a native Buffer exists (typeof Buffer is
not undefined) and whether the BufferPolyfill shim was installed. -/
structure BufferEnv where
  hasBuffer : Bool
  hasPolyfill : Bool
  deriving DecidableEq

/-- BufferPolyfill.from (tts-client-wrapper.ts:18-30): ArrayBuffer and
Uint8Array pass through as bytes, strings are encoded, anything else
becomes an empty buffer. -/
def polyfillFrom (p : ChunkPayload) : List Nat :=
  if p.isArrayBuffer then p.bytes
  else if p.isUint8Array then p.bytes
  else if p.isString then p.bytes
  else []

/-- The if-chain normalizing chunk.data (tts-client-wrapper.ts:298-309);
the Bool records whether the unexpected-type console.warn fired. -/
def normalizeAudioData (env : BufferEnv) (p : ChunkPayload) : List Nat × Bool :=
  if p.isUint8Array then (p.bytes, false)
  else if p.isArrayBuffer then (p.bytes, false)
  else if env.hasBuffer && p.isNodeBuffer then (p.bytes, false)
  else if env.hasPolyfill && p.isObject then (polyfillFrom p, false)
  else (([] : List Nat), true)

/-- One chunk yielded by communicate.stream(); data is none when
chunk.data is absent or falsy. -/
structure GenChunk where
  ctype : String
  cdata : Option ChunkPayload
  deriving DecidableEq

/-- Behaviour of the provider's async generator: either it yields a
finite list of chunks and finishes, or it throws after yielding some. -/
inductive GenStream where
  | yields (chunks : List GenChunk)
  | throws (chunks : List GenChunk) (e : String)
  deriving DecidableEq

/-- Body of the for-await loop for one chunk: only audio chunks with a
truthy data field are forwarded; none means the chunk is skipped. -/
def processChunk (env : BufferEnv) (c : GenChunk) : Option (List Nat × Bool) :=
  if c.ctype = "audio" then c.cdata.map (normalizeAudioData env) else none

/-- Events emitted and warnings logged while draining a chunk list. -/
def consumeChunks (env : BufferEnv) : List GenChunk → List TTSEvent × Nat
  | [] => ([], 0)
  | c :: rest =>
    let r := consumeChunks env rest
    match processChunk env c with
    | none => r
    | some (b, w) => (TTSEvent.data b :: r.1, (if w then 1 else 0) + r.2)

/-- consumeAsyncGenerator: drain the generator, emitting data per
forwarded chunk; emit end on exhaustion, or only error if the generator
throws.  Returns (events in order, warn count). -/
def consumeGen (env : BufferEnv) : GenStream → List TTSEvent × Nat
  | .yields cs =>
    let r := consumeChunks env cs
    (r.1 ++ [TTSEvent.endEv], r.2)
  | .throws cs e =>
    let r := consumeChunks env cs
    (r.1 ++ [TTSEvent.errorEv e], r.2)

/-! ### DeepgramTTSClient (tts-client-wrapper.ts:120-190) -/

/-- Strip trailing slashes (the replace of /\/+$/ with empty). -/
def stripTrailingSlashes (s : String) : String :=
  ⟨((s.data.reverse.dropWhile (fun c => c = '/'))).reverse⟩

/-- Persistent fields of a DeepgramTTSClient. -/
structure DeepgramTTSClient where
  apiKey : String
  model : String
  format : String
  baseUrl : String
  deriving DecidableEq

/-- The constructor (tts-client-wrapper.ts:126-130); absent options are
modelled as "". -/
def DeepgramTTSClient.make (apiKey model baseUrl : String) : DeepgramTTSClient :=
  { apiKey := jsTrim (jsOr apiKey "")
    model := jsTrim (jsOr model "aura-asteria-en")
    format := "mp3"
    baseUrl := stripTrailingSlashes (jsOr baseUrl "https://api.deepgram.com") }

/-- The network request toStream prepares (url query parts and body). -/
structure DeepgramRequest where
  baseUrl : String
  queryModel : String
  queryEncoding : String
  text : String
  speed : Option ℚ
  deriving DecidableEq

/-- DeepgramTTSClient.toStream (tts-client-wrapper.ts:139-189), up to the
point where it returns: throws when the trimmed api key is empty,
otherwise builds the request that the detached async block will issue and
returns the fresh adapter.  Except.error models a synchronous throw. -/
def DeepgramTTSClient.toStream (c : DeepgramTTSClient) (text : String) (rate : Option ℚ) :
    Except String (DeepgramRequest × SimpleStreamAdapter) :=
  if c.apiKey = "" then
    Except.error "Deepgram API key is not set. Add it in the plugin settings."
  else
    Except.ok
      ({ baseUrl := c.baseUrl
         queryModel := c.model
         queryEncoding := c.format
         text := text
         speed := match rate with
                  | some r => if r > 0 ∧ r ≠ 1 then some r else none
                  | none => none },
       SimpleStreamAdapter.initial)

/-- Response body byte-stream: the chunks successive reader.read() calls
deliver, and an optional exception thrown after them. -/
structure BodyStream where
  chunks : List (List Nat)
  readError : Option String
  deriving DecidableEq

/-- An HTTP response: status line data and the body (none when
response.body is null, so no reader can be obtained). -/
structure HttpResponse where
  status : Nat
  statusText : String
  body : Option BodyStream
  deriving DecidableEq

/-- response.ok: status in the 2xx range. -/
def responseOk (r : HttpResponse) : Bool :=
  decide (200 ≤ r.status) && decide (r.status < 300)

/-- Outcome of the fetch call itself. -/
inductive FetchResult where
  | fetchFailed (msg : String)
  | response (r : HttpResponse)
  deriving DecidableEq

/-- The detached async block of DeepgramTTSClient.toStream
(tts-client-wrapper.ts:152-186): events it emits on the adapter, in
order.  Every throw inside the try lands in the catch, which emits error
then end. -/
def deepgramRun (fr : FetchResult) : List TTSEvent :=
  match fr with
  | .fetchFailed e => [TTSEvent.errorEv e, TTSEvent.endEv]
  | .response r =>
    if responseOk r then
      match r.body with
      | none => [TTSEvent.errorEv "Deepgram response stream is not readable.", TTSEvent.endEv]
      | some bs =>
        match bs.readError with
        | none => bs.chunks.map TTSEvent.data ++ [TTSEvent.endEv]
        | some e => bs.chunks.map TTSEvent.data ++ [TTSEvent.errorEv e, TTSEvent.endEv]
    else
      [TTSEvent.errorEv ("Deepgram TTS request failed (" ++ toString r.status ++ ": "
         ++ r.statusText ++ ")"),
       TTSEvent.endEv]

/-! ### UniversalTTSClient.toStream (tts-client-wrapper.ts:225-326) -/

/-- Options object handed to the Communicate constructor. -/
structure CommunicateOptions where
  voice : Option String
  rate : Option String
  pitch : Option String
  volume : Option String
  deriving DecidableEq

/-- The first construction attempt's options: voice plus the converted
rate when present (finalProsodyOptions never carries pitch or volume). -/
def fullOpts (voice : Option String) (prosodyRate : Option ℚ) : CommunicateOptions :=
  { voice := voice
    rate := match prosodyRate with
            | some r => createProsodyOptions (some r)
            | none => none
    pitch := none
    volume := none }

/-- The fallback attempt's options: voice only. -/
def minimalOpts (voice : Option String) : CommunicateOptions :=
  { voice := voice, rate := none, pitch := none, volume := none }

/-- UniversalTTSClient.toStream: construction part.  ctor models the
Communicate class constructor (Except.error is a throw; ok carries an
abstract communicate handle).  Returns the synchronous outcome together
with the list of option shapes attempted, in order.  On ok the caller
receives the fresh generator-backed adapter. -/
def universalToStream (ctor : String → CommunicateOptions → Except String Nat)
    (voice : Option String) (text : String) (prosodyRate : Option ℚ) :
    Except String (Nat × GenAdapter) × List CommunicateOptions :=
  let communicateOptions := fullOpts voice prosodyRate
  match ctor text communicateOptions with
  | .ok c => (Except.ok (c, GenAdapter.initial), [communicateOptions])
  | .error _ =>
    match ctor text (minimalOpts voice) with
    | .ok c => (Except.ok (c, GenAdapter.initial), [communicateOptions, minimalOpts voice])
    | .error e =>
      (Except.error ("Failed to create TTS stream: " ++ e),
       [communicateOptions, minimalOpts voice])

/-! ### Helper lemmas -/

/-- Adding a listener appends its id to that event's list. -/
theorem getListeners_addListener (ls : List (String × List Nat)) (event : String) (cb : Nat) :
    getListeners (addListener ls event cb) event = getListeners ls event ++ [cb] := by
  induction ls with
  | nil => simp [addListener, getListeners]
  | cons p rest ih =>
    obtain ⟨e, cbs⟩ := p
    by_cases he : e = event <;> simp [addListener, getListeners, he, ih]

/-- Draining a concatenation of chunk lists concatenates the emitted
events and adds the warning counts. -/
theorem consumeChunks_append (env : BufferEnv) (xs ys : List GenChunk) :
    consumeChunks env (xs ++ ys) =
      ((consumeChunks env xs).1 ++ (consumeChunks env ys).1,
       (consumeChunks env xs).2 + (consumeChunks env ys).2) := by
  induction xs with
  | nil => simp [consumeChunks]
  | cons c rest ih =>
    simp only [List.cons_append, consumeChunks, ih]
    cases hpc : processChunk env c with
    | none => exact ih
    | some bw => simp [ih, Nat.add_assoc]

/-- Draining a chunk list emits only data events. -/
theorem consumeChunks_data_only (env : BufferEnv) (cs : List GenChunk) :
    ∃ ds : List (List Nat), (consumeChunks env cs).1 = ds.map TTSEvent.data := by
  induction cs with
  | nil => exact ⟨[], rfl⟩
  | cons c rest ih =>
    obtain ⟨ds, hds⟩ := ih
    cases hpc : processChunk env c with
    | none => exact ⟨ds, by simp [consumeChunks, hpc, hds]⟩
    | some bw => exact ⟨bw.1 :: ds, by simp [consumeChunks, hpc, hds]⟩

/-- Registering only non-data listeners neither starts consumption nor
sets isConsuming, from any state that is not yet consuming. -/
theorem runOns_no_data (calls : List (String × Nat)) :
    ∀ s : GenAdapter, (∀ c ∈ calls, c.1 ≠ "data") → s.isConsuming = false →
      (runOns s calls).2 = false ∧ (runOns s calls).1.isConsuming = false := by
  induction calls with
  | nil => intro s _ hs; exact ⟨rfl, hs⟩
  | cons c rest ih =>
    intro s h hs
    obtain ⟨e, cb⟩ := c
    have he : e ≠ "data" := h (e, cb) (List.mem_cons_self _ _)
    have hrest : ∀ c ∈ rest, c.1 ≠ "data" := fun c hc => h c (List.mem_cons_of_mem _ hc)
    have hstep : s.on e cb = ({ s with listeners := addListener s.listeners e cb }, [], false) := by
      simp [GenAdapter.on, he]
    have := ih { s with listeners := addListener s.listeners e cb } hrest hs
    simp [runOns, hstep, this.1, this.2]

end EdgeTTS

namespace EdgeTTS

/-! ### Claim theorems -/

/-- C3: the Prosody Normalizer computes round((r-1)*100); zero percent
omits the rate parameter, otherwise it renders a signed percentage
string; rate=1.2 gives "+20%", rate=0.8 gives "-20%", rate=1.0 and
rate=1.004 give no rate parameter. -/
theorem C3_prosody_normalizer :
    createProsodyOptions (some (12/10)) = some "+20%" ∧
    createProsodyOptions (some (8/10)) = some "-20%" ∧
    createProsodyOptions (some 1) = none ∧
    createProsodyOptions (some (1004/1000)) = none ∧
    ∀ r : ℚ,
      createProsodyOptions (some r) =
        if jsRound ((r - 1) * 100) = 0 then none
        else some (if jsRound ((r - 1) * 100) > 0
                   then "+" ++ toString (jsRound ((r - 1) * 100)) ++ "%"
                   else toString (jsRound ((r - 1) * 100)) ++ "%") := by
  refine ⟨?_, ?_, ?_, ?_, ?_⟩
  · have h : jsRound (((12:ℚ)/10 - 1) * 100) = 20 := by norm_num [jsRound]
    simp only [createProsodyOptions, h]
    decide
  · have h : jsRound (((8:ℚ)/10 - 1) * 100) = -20 := by norm_num [jsRound]
    simp only [createProsodyOptions, h]
    decide
  · have h : jsRound (((1:ℚ) - 1) * 100) = 0 := by norm_num [jsRound]
    simp only [createProsodyOptions, h]
    decide
  · have h : jsRound (((1004:ℚ)/1000 - 1) * 100) = 0 := by norm_num [jsRound]
    simp only [createProsodyOptions, h]
    decide
  · intro r
    by_cases h : jsRound ((r - 1) * 100) = 0 <;> simp [createProsodyOptions, h]

/-- C8: the effective voice is the trimmed model (default when blank) for
the deepgram engine, and otherwise the trimmed customVoice when
non-blank, else selectedVoice. -/
theorem C8_effective_voice (s : EdgeTTSPluginSettings) :
    getVoiceForSettings s =
      if s.ttsEngine = "deepgram" then
        (if jsTrim s.deepgramModel = "" then "aura-asteria-en" else jsTrim s.deepgramModel)
      else
        (if jsTrim s.customVoice = "" then s.selectedVoice else jsTrim s.customVoice) := by
  unfold getVoiceForSettings
  by_cases he : s.ttsEngine = "deepgram"
  · by_cases hm : s.deepgramModel = ""
    · simp only [he, hm, if_true]
      decide
    · simp [he, hm, jsOr]
  · simp [he, jsOr]

/-- C4: calling the Deepgram adapter's toStream with an empty api key
raises synchronously: no request is built and no adapter is returned. -/
theorem C4_empty_key (model baseUrl text : String) (rate : Option ℚ) :
    DeepgramTTSClient.toStream (DeepgramTTSClient.make "" model baseUrl) text rate =
      Except.error "Deepgram API key is not set. Add it in the plugin settings." := by
  have hk : (DeepgramTTSClient.make "" model baseUrl).apiKey = "" := by
    simp [DeepgramTTSClient.make, jsOr]
    decide
  simp [DeepgramTTSClient.toStream, hk]

/-- C5: a non-2xx response makes the Deepgram session emit exactly one
error event followed by exactly one end event, with zero data events. -/
theorem C5_non2xx (status : Nat) (statusText : String) (body : Option BodyStream)
    (h : responseOk { status := status, statusText := statusText, body := body } = false) :
    deepgramRun (FetchResult.response { status := status, statusText := statusText, body := body }) =
      [TTSEvent.errorEv ("Deepgram TTS request failed (" ++ toString status ++ ": "
         ++ statusText ++ ")"),
       TTSEvent.endEv] := by
  simp [deepgramRun, h]

/-- C5 witness: a 401 response yields error then end and nothing else. -/
theorem C5_non2xx_witness :
    responseOk { status := 401, statusText := "Unauthorized", body := none } = false ∧
    deepgramRun (FetchResult.response { status := 401, statusText := "Unauthorized", body := none }) =
      [TTSEvent.errorEv ("Deepgram TTS request failed (" ++ toString 401 ++ ": "
         ++ "Unauthorized" ++ ")"),
       TTSEvent.endEv] :=
  ⟨by decide, C5_non2xx 401 "Unauthorized" none (by decide)⟩

/-- C10: the Deepgram client trims its api key at construction, so a
whitespace-only key fails toStream exactly like an absent one. -/
theorem C10_whitespace_key (apiKey model baseUrl text : String) (rate : Option ℚ)
    (h : jsTrim apiKey = "") :
    DeepgramTTSClient.toStream (DeepgramTTSClient.make apiKey model baseUrl) text rate =
      Except.error "Deepgram API key is not set. Add it in the plugin settings." := by
  have hk : (DeepgramTTSClient.make apiKey model baseUrl).apiKey = "" := by
    by_cases ha : apiKey = ""
    · simp [DeepgramTTSClient.make, jsOr, ha]
      decide
    · simp [DeepgramTTSClient.make, jsOr, ha, h]
  simp [DeepgramTTSClient.toStream, hk]

/-- C10 witness: a key of three spaces is rejected synchronously. -/
theorem C10_whitespace_key_witness :
    jsTrim "   " = "" ∧
    DeepgramTTSClient.toStream (DeepgramTTSClient.make "   " "m" "") "hello" none =
      Except.error "Deepgram API key is not set. Add it in the plugin settings." :=
  ⟨by decide, C10_whitespace_key "   " "m" "" "hello" none (by decide)⟩

/-- C1 counterexample: a generator-backed session whose (empty) generator
has been consumed emits end (first conjunct), yet registering an end
listener on that already-ended session invokes nothing immediately —
in particular not the single no-argument invocation the claim requires. -/
theorem C1_counterexample :
    (consumeGen { hasBuffer := true, hasPolyfill := false } (GenStream.yields [])).1
        = [TTSEvent.endEv] ∧
    ((GenAdapter.initial.on "data" 0).1.on "end" 1).2.1 = [] ∧
    ((GenAdapter.initial.on "data" 0).1.on "end" 1).2.1 ≠ [⟨1, ([] : List EmitArg)⟩] := by
  decide

/-- C1 amended: for HTTP-Streaming Adapter sessions (SimpleStreamAdapter)
only, registering an end listener after the session ended invokes it
immediately and exactly once with no arguments, in addition to storing
it; the generator-backed adapter stores such a listener without firing
it. -/
theorem C1_amended_late_end (s : SimpleStreamAdapter) (cb : Nat) (h : s.hasEnded = true) :
    (s.on "end" cb).2 = [⟨cb, []⟩] ∧
    getListeners (s.on "end" cb).1.listeners "end" = getListeners s.listeners "end" ++ [cb] := by
  constructor
  · simp [SimpleStreamAdapter.on, h]
  · simp [SimpleStreamAdapter.on, h, getListeners_addListener]

/-- C1 amended witness: an ended adapter fires a late end listener once. -/
theorem C1_amended_late_end_witness :
    ({ listeners := [("data", [3])], hasEnded := true } : SimpleStreamAdapter).hasEnded = true ∧
    (({ listeners := [("data", [3])], hasEnded := true } : SimpleStreamAdapter).on "end" 7).2
        = [⟨7, []⟩] ∧
    getListeners (({ listeners := [("data", [3])], hasEnded := true } :
        SimpleStreamAdapter).on "end" 7).1.listeners "end" =
      getListeners [("data", [3])] "end" ++ [7] :=
  ⟨rfl, C1_amended_late_end { listeners := [("data", [3])], hasEnded := true } 7 rfl⟩

/-- C2 counterexample: the HTTP adapter's non-ok path emits error and
then end (two terminal events, end after error), and the generator
adapter forwards an unrecognized audio payload as a data event carrying
an empty chunk — both contradicting the claimed per-session sequence. -/
theorem C2_counterexample :
    deepgramRun (FetchResult.response { status := 500, statusText := "Server Error", body := none })
        = [TTSEvent.errorEv "Deepgram TTS request failed (500: Server Error)", TTSEvent.endEv] ∧
    (consumeGen { hasBuffer := false, hasPolyfill := false }
        (GenStream.yields [{ ctype := "audio",
                             cdata := some { isUint8Array := false, isArrayBuffer := false,
                                             isNodeBuffer := false, isString := false,
                                             isObject := false, bytes := [] } }])).1
        = [TTSEvent.data [], TTSEvent.endEv] := by
  constructor
  · decide
  · decide

/-- C2 amended: a generator-backed session emits zero or more data events
followed by exactly one terminal event (end on exhaustion, error on
exception) and never fires end after error; an HTTP session emits zero or
more data events followed by end alone on success or by error then end on
failure; data chunks are not guaranteed non-empty. -/
theorem C2_amended_event_order (env : BufferEnv) (gs : GenStream) (fr : FetchResult) :
    (∃ ds : List (List Nat),
       (consumeGen env gs).1 = ds.map TTSEvent.data ++ [TTSEvent.endEv] ∨
       ∃ e, (consumeGen env gs).1 = ds.map TTSEvent.data ++ [TTSEvent.errorEv e]) ∧
    (∃ ds : List (List Nat),
       deepgramRun fr = ds.map TTSEvent.data ++ [TTSEvent.endEv] ∨
       ∃ e, deepgramRun fr = ds.map TTSEvent.data ++ [TTSEvent.errorEv e, TTSEvent.endEv]) := by
  constructor
  · cases gs with
    | yields cs =>
      obtain ⟨ds, hds⟩ := consumeChunks_data_only env cs
      exact ⟨ds, Or.inl (by simp [consumeGen, hds])⟩
    | throws cs e =>
      obtain ⟨ds, hds⟩ := consumeChunks_data_only env cs
      exact ⟨ds, Or.inr ⟨e, by simp [consumeGen, hds]⟩⟩
  · cases fr with
    | fetchFailed e => exact ⟨[], Or.inr ⟨e, by simp [deepgramRun]⟩⟩
    | response r =>
      by_cases hok : responseOk r = true
      · cases hb : r.body with
        | none =>
          exact ⟨[], Or.inr ⟨"Deepgram response stream is not readable.",
            by simp [deepgramRun, hok, hb]⟩⟩
        | some bs =>
          cases hre : bs.readError with
          | none => exact ⟨bs.chunks, Or.inl (by simp [deepgramRun, hok, hb, hre])⟩
          | some e => exact ⟨bs.chunks, Or.inr ⟨e, by simp [deepgramRun, hok, hb, hre]⟩⟩
      · exact ⟨[], Or.inr ⟨"Deepgram TTS request failed (" ++ toString r.status ++ ": "
          ++ r.statusText ++ ")", by simp [deepgramRun, hok]⟩⟩

/-- C6: no generator chunk is pulled before the first data listener —
any sequence of non-data registrations from the fresh adapter never
invokes consumeAsyncGenerator and leaves the session not consuming,
while the next data registration on the resulting state does start
consumption. -/
theorem C6_lazy_consumption (calls : List (String × Nat)) (cb : Nat)
    (h : ∀ c ∈ calls, c.1 ≠ "data") :
    (runOns GenAdapter.initial calls).2 = false ∧
    (runOns GenAdapter.initial calls).1.isConsuming = false ∧
    ((runOns GenAdapter.initial calls).1.on "data" cb).2.2 = true ∧
    ((runOns GenAdapter.initial calls).1.on "data" cb).1.isConsuming = true := by
  obtain ⟨h1, h2⟩ := runOns_no_data calls GenAdapter.initial h rfl
  refine ⟨h1, h2, ?_, ?_⟩ <;> simp [GenAdapter.on, h2]

/-- C6 witness: registering end and error listeners starts nothing; the
first data listener then starts consumption. -/
theorem C6_lazy_consumption_witness :
    (∀ c ∈ [("end", 0), ("error", 1)], Prod.fst c ≠ "data") ∧
    ((runOns GenAdapter.initial [("end", 0), ("error", 1)]).2 = false ∧
     (runOns GenAdapter.initial [("end", 0), ("error", 1)]).1.isConsuming = false ∧
     ((runOns GenAdapter.initial [("end", 0), ("error", 1)]).1.on "data" 2).2.2 = true ∧
     ((runOns GenAdapter.initial [("end", 0), ("error", 1)]).1.on "data" 2).1.isConsuming = true) :=
  ⟨by decide, C6_lazy_consumption [("end", 0), ("error", 1)] 2 (by decide)⟩

/-- C7: when the provider constructor rejects the full option shape, the
adapter retries exactly once with voice-only options (attempt list is
exactly full then minimal); if the retry succeeds a session is returned,
and if it also fails the wrapped error surfaces synchronously with no
session and no further attempt. -/
theorem C7_construction_fallback
    (ctorA ctorB : String → CommunicateOptions → Except String Nat)
    (voice : Option String) (text : String) (prosodyRate : Option ℚ)
    (e1 : String) (c : Nat) (e2 e3 : String)
    (hA1 : ctorA text (fullOpts voice prosodyRate) = Except.error e1)
    (hA2 : ctorA text (minimalOpts voice) = Except.ok c)
    (hB1 : ctorB text (fullOpts voice prosodyRate) = Except.error e2)
    (hB2 : ctorB text (minimalOpts voice) = Except.error e3) :
    universalToStream ctorA voice text prosodyRate =
      (Except.ok (c, GenAdapter.initial), [fullOpts voice prosodyRate, minimalOpts voice]) ∧
    universalToStream ctorB voice text prosodyRate =
      (Except.error ("Failed to create TTS stream: " ++ e3),
       [fullOpts voice prosodyRate, minimalOpts voice]) := by
  constructor
  · simp [universalToStream, hA1, hA2]
  · simp [universalToStream, hB1, hB2]

/-- Constructor that rejects any options carrying a rate (used as the
C7 witness's provider). -/
def c7CtorA : String → CommunicateOptions → Except String Nat :=
  fun _ o =>
    match o.rate with
    | some _ => Except.error "prosody unsupported"
    | none => Except.ok 5

/-- Constructor that rejects every option shape (C7 witness). -/
def c7CtorB : String → CommunicateOptions → Except String Nat :=
  fun _ _ => Except.error "voice unsupported"

/-- C7 witness: with rate 1.2 the full options carry "+20%"; c7CtorA
fails on them and succeeds voice-only, c7CtorB fails on both. -/
theorem C7_construction_fallback_witness :
    c7CtorA "hi" (fullOpts (some "v") (some (12/10))) = Except.error "prosody unsupported" ∧
    c7CtorA "hi" (minimalOpts (some "v")) = Except.ok 5 ∧
    c7CtorB "hi" (fullOpts (some "v") (some (12/10))) = Except.error "voice unsupported" ∧
    c7CtorB "hi" (minimalOpts (some "v")) = Except.error "voice unsupported" ∧
    universalToStream c7CtorA (some "v") "hi" (some (12/10)) =
      (Except.ok (5, GenAdapter.initial),
       [fullOpts (some "v") (some (12/10)), minimalOpts (some "v")]) ∧
    universalToStream c7CtorB (some "v") "hi" (some (12/10)) =
      (Except.error ("Failed to create TTS stream: " ++ "voice unsupported"),
       [fullOpts (some "v") (some (12/10)), minimalOpts (some "v")]) := by
  have hr : jsRound (((12:ℚ)/10 - 1) * 100) = 20 := by norm_num [jsRound]
  have hrate : (fullOpts (some "v") (some (12/10))).rate = some "+20%" := by
    simp only [fullOpts, createProsodyOptions, hr]
    decide
  have hA1 : c7CtorA "hi" (fullOpts (some "v") (some (12/10)))
      = Except.error "prosody unsupported" := by
    simp only [c7CtorA, hrate]
  have hmain := C7_construction_fallback c7CtorA c7CtorB (some "v") "hi" (some (12/10))
    "prosody unsupported" 5 "voice unsupported" "voice unsupported" hA1 rfl rfl rfl
  exact ⟨hA1, rfl, rfl, rfl, hmain.1, hmain.2⟩

/-- C9: an audio chunk whose payload matches no recognized shape logs a
warning and is forwarded as one data event carrying a zero-length chunk;
the rest of the stream is processed and end still fires. -/
theorem C9_unrecognized_payload (env : BufferEnv) (p : ChunkPayload) (pre post : List GenChunk)
    (h1 : p.isUint8Array = false) (h2 : p.isArrayBuffer = false)
    (h3 : (env.hasBuffer && p.isNodeBuffer) = false)
    (h4 : (env.hasPolyfill && p.isObject) = false) :
    normalizeAudioData env p = ([], true) ∧
    consumeGen env (GenStream.yields (pre ++ { ctype := "audio", cdata := some p } :: post)) =
      ((consumeChunks env pre).1
         ++ TTSEvent.data [] :: ((consumeChunks env post).1 ++ [TTSEvent.endEv]),
       (consumeChunks env pre).2 + (1 + (consumeChunks env post).2)) := by
  have hnorm : normalizeAudioData env p = ([], true) := by
    simp [normalizeAudioData, h1, h2, h3, h4]
  refine ⟨hnorm, ?_⟩
  have hmid : processChunk env { ctype := "audio", cdata := some p }
      = some ([], true) := by
    simp [processChunk, hnorm]
  simp [consumeGen, consumeChunks_append, consumeChunks, hmid]

/-- C9 witness: an unrecognized payload in a one-chunk tail is forwarded
as an empty data chunk, the following recognized chunk still streams,
and exactly one warning is logged. -/
theorem C9_unrecognized_payload_witness :
    ({ isUint8Array := false, isArrayBuffer := false, isNodeBuffer := false,
       isString := false, isObject := false, bytes := [1, 2] } : ChunkPayload).isUint8Array
        = false ∧
    consumeGen { hasBuffer := false, hasPolyfill := false }
      (GenStream.yields
        ([] ++ { ctype := "audio",
                 cdata := some { isUint8Array := false, isArrayBuffer := false,
                                 isNodeBuffer := false, isString := false,
                                 isObject := false, bytes := [1, 2] } } ::
          [{ ctype := "audio",
             cdata := some { isUint8Array := true, isArrayBuffer := false,
                             isNodeBuffer := false, isString := false,
                             isObject := true, bytes := [9] } }])) =
      ((consumeChunks { hasBuffer := false, hasPolyfill := false } []).1
         ++ TTSEvent.data [] ::
           ((consumeChunks { hasBuffer := false, hasPolyfill := false }
               [{ ctype := "audio",
                  cdata := some { isUint8Array := true, isArrayBuffer := false,
                                  isNodeBuffer := false, isString := false,
                                  isObject := true, bytes := [9] } }]).1
             ++ [TTSEvent.endEv]),
       (consumeChunks { hasBuffer := false, hasPolyfill := false } []).2
         + (1 + (consumeChunks { hasBuffer := false, hasPolyfill := false }
               [{ ctype := "audio",
                  cdata := some { isUint8Array := true, isArrayBuffer := false,
                                  isNodeBuffer := false, isString := false,
                                  isObject := true, bytes := [9] } }]).2)) :=
  ⟨rfl,
   (C9_unrecognized_payload { hasBuffer := false, hasPolyfill := false }
      { isUint8Array := false, isArrayBuffer := false, isNodeBuffer := false,
        isString := false, isObject := false, bytes := [1, 2] }
      []
      [{ ctype := "audio",
         cdata := some { isUint8Array := true, isArrayBuffer := false,
                         isNodeBuffer := false, isString := false,
                         isObject := true, bytes := [9] } }]
      rfl rfl rfl rfl).2⟩

end EdgeTTS
